import Mathlib

/-!
Shallow embedding of the vfx-mcp server's parameter-validation and
command-building layer (src/main.py), together with theorems checking the
natural-language specification against it.

Python floats are modelled as rationals (ℚ): every finite IEEE double is a
dyadic rational, and the only arithmetic the embedded code performs on them
(division by two, comparison, multiplication by small constants) is exact on
dyadic rationals.  Python ints are modelled as ℤ.  A raised Python exception
is modelled as `Except.error`; the side effects a tool performs before
returning or raising (file writes, engine invocations, file deletions) are
recorded in an explicit trace.
-/

namespace VfxMcp

/-! ### String primitives

Core `String` routines such as `splitOn` and `toInt?` are position-based
loops that the kernel cannot evaluate, so the embedding uses list-based
equivalents throughout; each models the corresponding Python string
operation. -/

/-- `str.split(sep)` for a single-character separator, on character
lists: always returns at least one (possibly empty) group. -/
def splitChar (c : Char) : List Char → List (List Char)
  | [] => [[]]
  | ch :: rest =>
    match splitChar c rest with
    | [] => [[]]
    | g :: gs => if ch = c then [] :: g :: gs else (ch :: g) :: gs

/-- `str.split(sep)` for a single-character separator. -/
def splitOnChar (s : String) (c : Char) : List String :=
  (splitChar c s.toList).map String.mk

/-- Accumulating decimal parse; fails on the first non-digit. -/
def parseNatAux : List Char → ℕ → Option ℕ
  | [], acc => some acc
  | ch :: rest, acc =>
    if ch.isDigit then parseNatAux rest (acc * 10 + (ch.toNat - 48))
    else none

/-- All-digit parse of a non-empty character list. -/
def parseNatDigits : List Char → Option ℕ
  | [] => none
  | cs => parseNatAux cs 0

/-- Python's `int(str)` on plain decimal strings with an optional sign. -/
def pyInt? (s : String) : Option ℤ :=
  match s.toList with
  | [] => none
  | c :: rest =>
    if c = Char.ofNat 45 then (parseNatDigits rest).map (fun n => -(n : ℤ))
    else if c = Char.ofNat 43 then (parseNatDigits rest).map (fun n => (n : ℤ))
    else (parseNatDigits (c :: rest)).map (fun n => (n : ℤ))

/-- `str.lower()`. -/
def strToLower (s : String) : String :=
  String.mk (s.toList.map Char.toLower)

/-- `str.startswith(c)` for a single character. -/
def strStartsWithChar (s : String) (c : Char) : Bool :=
  match s.toList with
  | ch :: _ => ch = c
  | [] => false

/-- `str[1:]`. -/
def strDrop1 (s : String) : String :=
  String.mk (s.toList.drop 1)

/-- `c in str` for a single character. -/
def strContainsChar (s : String) (c : Char) : Bool :=
  s.toList.contains c

/-- Errors a tool can surface to its caller: `valueError` models Python's
`ValueError` (validation failures), `runtimeError` models `RuntimeError`
(wrapped engine failures). -/
inductive VfxError where
  | valueError (msg : String)
  | runtimeError (msg : String)
  deriving DecidableEq, Repr

/-- `ffmpeg.Error` from the ffmpeg-python library: it carries the command
name and the captured stdout/stderr bytes (empty string models absent or
empty capture, which is falsy in Python). -/
structure FfmpegError where
  cmd : String
  stdout : String
  stderr : String
  deriving DecidableEq, Repr

/-- `str(e)` for `ffmpeg.Error`: the library constructs the exception message
as `"{cmd} error (see stderr output for detail)"`. -/
def FfmpegError.render (e : FfmpegError) : String :=
  e.cmd ++ " error (see stderr output for detail)"

/-- The standard wrap used by the tools in main.py:
`f"FFmpeg error: {e.stderr.decode() if e.stderr else str(e)}"`. -/
def ffmpegErrorMsg (e : FfmpegError) : String :=
  "FFmpeg error: " ++ (if e.stderr = "" then e.render else e.stderr)

/-- Outcome of one external engine invocation, supplied as an oracle to each
embedded tool. -/
inductive EngineResult where
  | ok
  | err (e : FfmpegError)
  deriving DecidableEq, Repr

/-- `msgContains hay pat` holds when `pat` occurs as a contiguous substring
of `hay`. -/
def msgContains (hay pat : String) : Prop :=
  pat.data <:+: hay.data

instance (hay pat : String) : Decidable (msgContains hay pat) :=
  List.decidableInfix pat.data hay.data

/-- Python truthiness of an optional float argument: `None` and `0.0` are
falsy. -/
def truthyQ : Option ℚ → Bool
  | none => false
  | some q => decide (q ≠ 0)

/-- Python truthiness of an optional int argument: `None` and `0` are
falsy. -/
def truthyI : Option ℤ → Bool
  | none => false
  | some n => decide (n ≠ 0)

/-- Scale-filter argument shapes produced by `resize_video`. -/
inductive ScaleSpec where
  | factor (s : ℚ)
  | exact (w h : ℤ)
  | widthAuto (w : ℤ)
  | heightAuto (h : ℤ)
  deriving DecidableEq, Repr

/-- One audio input of `merge_audio_tracks` after its per-track filters:
`adelay` (in milliseconds) when the delay is positive, `volume` when it
differs from 1.0. -/
structure TrackSpec where
  path : String
  adelay : Option ℤ
  volume : Option ℚ
  deriving DecidableEq, Repr

/-- Mixing structure chosen by `merge_audio_tracks` from `mix_mode`. -/
inductive MixPlan where
  | amixAll (n : ℕ)
  | seqConcat (n : ℕ)
  | overlayFold (n : ℕ)
  deriving DecidableEq, Repr

/-- Filter stages `apply_color_grading` conditionally appends. -/
inductive ColorStep where
  | eqBrightnessContrast (b c : ℚ)
  | eqSaturation (s : ℚ)
  | eqGamma (g : ℚ)
  | colorbalance (rs gs bs : ℚ)
  deriving DecidableEq, Repr

/-- The command graph a tool hands to the external engine, one constructor
per embedded tool. -/
inductive EngineCmd where
  | trim (input : String) (ss : ℚ) (t : Option ℚ) (codec : String) (output : String)
  | resize (input : String) (spec : ScaleSpec) (output : String)
  | concatDemux (listFile : String) (codec : String) (output : String)
  | speed (input : String) (setptsDiv : ℚ) (atempoStages : List ℚ) (output : String)
  | mosaic (cells : List (String × ℤ × ℤ)) (stack : Option (ℤ × String))
      (audioFrom : Option String) (vcodec : String) (acodec : Option String)
      (output : String)
  | greenScreen (input : String) (keyColor : String) (similarity blend : ℚ)
      (despill : Option (ℤ × ℚ × ℚ)) (background : Option String)
      (vcodec pixFmt : String) (output : String)
  | mergeAudio (tracks : List TrackSpec) (plan : MixPlan) (acodec : String)
      (output : String)
  | colorGrade (input : String) (steps : List ColorStep) (vcodec : String)
      (output : String)
  | probeCall (path : String)
  | nullFilter (input vf : String)
  deriving DecidableEq, Repr

/-- Observable side effects of one tool call, in program order. -/
inductive Effect where
  | writeFile (path content : String)
  | runEngine (cmd : EngineCmd)
  | unlink (path : String)
  deriving DecidableEq, Repr

/-- Result of one embedded tool call: the returned value or raised error,
plus the trace of side effects performed before returning or raising. -/
def ToolResult := Except VfxError String × List Effect

/-- Shared success/failure step for tools that invoke the engine once and
wrap `ffmpeg.Error` with the standard message. -/
def runStandard (cmd : EngineCmd) (engine : EngineResult) (okMsg : String) :
    ToolResult :=
  match engine with
  | .ok => (.ok okMsg, [.runEngine cmd])
  | .err e => (.error (.runtimeError (ffmpegErrorMsg e)), [.runEngine cmd])

/-- Number of engine invocations in a trace. -/
def engineRuns (tr : List Effect) : ℕ :=
  (tr.filter (fun eff => match eff with | .runEngine _ => true | _ => false)).length

/-- Whether `p` exists on disk after the trace ran, assuming it did not
exist before. -/
def persistsAfter (tr : List Effect) (p : String) : Bool :=
  tr.foldl
    (fun b eff =>
      match eff with
      | .writeFile q _ => if q = p then true else b
      | .unlink q => if q = p then false else b
      | .runEngine _ => b)
    false

/-! ### change_speed (src/main.py:457-531) -/

/-- The audio-decomposition loop of `change_speed` for `speed > 2.0`:
`while remaining > 2.0: stage 2.0; remaining /= 2.0`, then one final stage
`remaining` when `remaining > 1.0`. -/
def atempoLoop (remaining : ℚ) : List ℚ :=
  if 2 < remaining then 2 :: atempoLoop (remaining / 2)
  else if 1 < remaining then [remaining]
  else []
termination_by ⌈remaining⌉.toNat
decreasing_by
  rename_i h
  have h1 : remaining / 2 ≤ remaining - 1 := by linarith
  have h2 : (⌈remaining / 2⌉ : ℤ) ≤ ⌈remaining - 1⌉ := Int.ceil_le_ceil h1
  rw [Int.ceil_sub_one] at h2
  have h3 : (0 : ℤ) < ⌈remaining⌉ := Int.ceil_pos.mpr (by linarith)
  omega

/-- The atempo filter chain `change_speed` attaches to the audio stream:
a single stage for `speed ≤ 2.0`, the loop above otherwise. -/
def audioChain (speed : ℚ) : List ℚ :=
  if speed ≤ 2 then [speed] else atempoLoop speed

/-- `change_speed` (validates `speed > 0`, scales video timestamps by
`setpts PTS/speed`, decomposes the audio tempo through `audioChain`). -/
def change_speed (input_path output_path : String) (speed : ℚ)
    (engine : EngineResult) : ToolResult :=
  if speed ≤ 0 then
    (.error (.valueError "Speed must be greater than 0"), [])
  else
    runStandard (.speed input_path speed (audioChain speed) output_path) engine
      s!"Video speed changed to {speed}x and saved to {output_path}"

/-! ### trim_video (src/main.py:31-81) -/

/-- `trim_video`: no parameter validation; seeks to `start_time`, copies
streams, and passes `t=duration` only when `duration` is truthy (so
`duration = 0` behaves like an omitted duration). -/
def trim_video (input_path output_path : String) (start_time : ℚ)
    (duration : Option ℚ) (engine : EngineResult) : ToolResult :=
  let t := if truthyQ duration then duration else none
  runStandard (.trim input_path start_time t "copy" output_path) engine
    s!"Video trimmed successfully and saved to {output_path}"

/-! ### resize_video (src/main.py:157-219) -/

/-- The branch cascade of `resize_video`: `scale` first (as the expression
pair `iw*scale, ih*scale`), then `width and height`, then `width` alone with
height `-1`, else `height` alone with width `-1`.  The `getD 0` defaults are
never exercised: each branch is guarded by the truthiness of the value it
reads. -/
def resizeSpec (width height : Option ℤ) (scale : Option ℚ) : ScaleSpec :=
  if truthyQ scale then .factor (scale.getD 0)
  else if truthyI width && truthyI height then .exact (width.getD 0) (height.getD 0)
  else if truthyI width then .widthAuto (width.getD 0)
  else .heightAuto (height.getD 0)

/-- `resize_video`: raises when `width`, `height` and `scale` are all falsy,
otherwise builds one scale filter per `resizeSpec`. -/
def resize_video (input_path output_path : String) (width height : Option ℤ)
    (scale : Option ℚ) (engine : EngineResult) : ToolResult :=
  if !(truthyI width || truthyI height || truthyQ scale) then
    (.error (.valueError "Must specify either width, height, or scale"), [])
  else
    runStandard (.resize input_path (resizeSpec width height scale) output_path)
      engine s!"Video resized and saved to {output_path}"

/-! ### concatenate_videos (src/main.py:223-274) -/

/-- A single-quote character, used in the demuxer list-file syntax. -/
def sq : String := "\x27"

/-- `Path(output_path).parent / "concat_list.txt"` for slash-separated
paths. -/
def listFilePath (output_path : String) : String :=
  match (splitOnChar output_path (Char.ofNat 47)).dropLast with
  | [] => "concat_list.txt"
  | ds => String.intercalate "/" ds ++ "/concat_list.txt"

/-- The list-file body: one `file '<abspath>'` line per input, in order.
`abspath` stands for `os.path.abspath`. -/
def concatListContent (abspath : String → String) (input_paths : List String) :
    String :=
  String.join (input_paths.map (fun p => "file " ++ sq ++ abspath p ++ sq ++ "\n"))

/-- `concatenate_videos`: validates `len ≥ 2`, writes the demuxer list file,
invokes the engine in stream-copy mode, and unlinks the list file.  The
unlink sits inside the `try` after `ffmpeg.run`, so when the engine raises,
the generic `except Exception` handler re-raises
`RuntimeError(f"Error concatenating videos: {str(e)}")` and the unlink never
runs. -/
def concatenate_videos (input_paths : List String) (output_path : String)
    (abspath : String → String) (engine : EngineResult) : ToolResult :=
  if input_paths.length < 2 then
    (.error (.valueError "Need at least 2 videos to concatenate"), [])
  else
    let lf := listFilePath output_path
    let content := concatListContent abspath input_paths
    let cmd := EngineCmd.concatDemux lf "copy" output_path
    match engine with
    | .ok =>
        (.ok s!"Videos concatenated and saved to {output_path}",
         [.writeFile lf content, .runEngine cmd, .unlink lf])
    | .err e =>
        (.error (.runtimeError ("Error concatenating videos: " ++ e.render)),
         [.writeFile lf content, .runEngine cmd])

/-! ### create_video_mosaic (src/main.py:939-1037) -/

/-- The layout parse of `create_video_mosaic`: first the literal
`"x" not in layout` check, then `cols, rows = map(int, layout.split("x"))`
inside a `try` whose `ValueError` handler reports the malformed layout
(wrong number of parts, or a part `int()` rejects). -/
def parseLayout (layout : String) : Except VfxError (ℤ × ℤ) :=
  if !(strContainsChar layout (Char.ofNat 120)) then
    .error (.valueError "Layout must be in format 'WxH' (e.g., '2x2', '3x1')")
  else
    match (splitOnChar layout (Char.ofNat 120)).map pyInt? with
    | [some c, some r] => .ok (c, r)
    | _ => .error (.valueError ("Invalid layout format: " ++ layout))

/-- Python's `l[:n]` slice: a non-negative stop takes a prefix, a negative
stop drops `|n|` elements from the end. -/
def pySliceTo (l : List α) (n : ℤ) : List α :=
  if 0 ≤ n then l.take n.toNat else l.take (l.length - n.natAbs)

/-- The xstack layout string built row by row: cell labels `col_row` joined
by `_` within a row, rows joined by `|`; a label is emitted only when its
linear index is below the number of scaled inputs. -/
def xstackLayout (cols rows : ℤ) (numInputs : ℕ) : String :=
  String.intercalate "|"
    ((List.range rows.toNat).map (fun row =>
      String.intercalate "_"
        (((List.range cols.toNat).filter
            (fun col => row * cols.toNat + col < numInputs)).map
          (fun col => s!"{col}_{row}"))))

/-- `create_video_mosaic`: parses the layout, requires
`len(input_paths) ≥ cols*rows`, scales each of the first `cols*rows` inputs
to `1920 // cols × 1080 // rows` (Python floor division), stacks them with
xstack (skipped for a 1×1 grid), and takes audio from `input_paths[audio_source]`
when that index is in range. -/
def create_video_mosaic (input_paths : List String) (output_path layout : String)
    (audio_source : ℤ) (engine : EngineResult) : ToolResult :=
  match parseLayout layout with
  | .error err => (.error err, [])
  | .ok (cols, rows) =>
    let required := cols * rows
    let count := input_paths.length
    if (count : ℤ) < required then
      (.error (.valueError
        s!"Layout {layout} requires {required} videos, but only {count} provided"), [])
    else
      let cells := (pySliceTo input_paths required).map
        (fun p => (p, Int.fdiv 1920 cols, Int.fdiv 1080 rows))
      let stack : Option (ℤ × String) :=
        if cols = 1 ∧ rows = 1 then none
        else some (required, xstackLayout cols rows cells.length)
      let audioFrom : Option String :=
        if 0 ≤ audio_source ∧ audio_source < (count : ℤ) then
          some (input_paths.getD audio_source.toNat "")
        else none
      let acodec : Option String := if audioFrom.isSome then some "aac" else none
      runStandard (.mosaic cells stack audioFrom "libx264" acodec output_path)
        engine s!"Video mosaic ({layout}) created and saved to {output_path}"

/-! ### create_green_screen_effect (src/main.py:1703-1822) -/

/-- The named-color table of `create_green_screen_effect`. -/
def color_map : List (String × String) :=
  [("green", "0x00FF00"), ("blue", "0x0000FF"), ("red", "0xFF0000"),
   ("cyan", "0x00FFFF"), ("magenta", "0xFF00FF"), ("yellow", "0xFFFF00")]

/-- Key-color resolution: lowercase name through the table, else `#RRGGBB`
rewritten to `0xRRGGBB`, else the string as given. -/
def resolveKeyColor (chroma_key_color : String) : String :=
  match color_map.lookup (strToLower chroma_key_color) with
  | some hex => hex
  | none =>
      if strStartsWithChar chroma_key_color (Char.ofNat 35) then
        "0x" ++ strDrop1 chroma_key_color
      else chroma_key_color

/-- `create_green_screen_effect`: validates `similarity`, `blend` and
`spill_reduction` against `[0, 1]` (rejecting, not clamping), resolves the
key color, adds a despill stage (`type` 1 for green else 2, `mix` the spill
value, `expand` half of it) only when `spill_reduction > 0`, and composites
over `background_path` when one is given. -/
def create_green_screen_effect (input_path output_path : String)
    (background_path : Option String) (chroma_key_color : String)
    (similarity blend spill_reduction : ℚ) (engine : EngineResult) : ToolResult :=
  if !(0 ≤ similarity ∧ similarity ≤ 1) then
    (.error (.valueError "Similarity must be between 0.0 and 1.0"), [])
  else if !(0 ≤ blend ∧ blend ≤ 1) then
    (.error (.valueError "Blend must be between 0.0 and 1.0"), [])
  else if !(0 ≤ spill_reduction ∧ spill_reduction ≤ 1) then
    (.error (.valueError "Spill reduction must be between 0.0 and 1.0"), [])
  else
    let key_color := resolveKeyColor chroma_key_color
    let despill : Option (ℤ × ℚ × ℚ) :=
      if 0 < spill_reduction then
        some (if strToLower chroma_key_color = "green" then 1 else 2,
              spill_reduction, spill_reduction * (1 / 2))
      else none
    let bg_msg :=
      if background_path.isSome then " with custom background"
      else " with transparent background"
    runStandard
      (.greenScreen input_path key_color similarity blend despill
        background_path "libx264" "yuv420p" output_path)
      engine s!"Green screen effect applied{bg_msg} and saved to {output_path}"

/-! ### merge_audio_tracks (src/main.py:1589-1699) -/

/-- Python truthiness of an optional list argument: `None` and `[]` are
falsy. -/
def truthyL (l : Option (List ℚ)) : Bool :=
  match l with
  | none => false
  | some xs => !xs.isEmpty

/-- The per-track filter assembly of `merge_audio_tracks`: `adelay` with
`int(delay * 1000)` milliseconds when the delay is positive, a `volume`
filter when the volume differs from 1.0; `zip(..., strict=False)`
truncates to the shortest list. -/
def trackSpecs (paths : List String) (vols dels : List ℚ) : List TrackSpec :=
  (paths.zip (vols.zip dels)).map (fun pvd =>
    let v : ℚ := pvd.snd.fst
    let d : ℚ := pvd.snd.snd
    { path := pvd.fst,
      adelay := if 0 < d then some ⌊d * 1000⌋ else none,
      volume := if v ≠ 1 then some v else none })

/-- `merge_audio_tracks`: validates the track count, the mix mode, then the
volumes list (length, then the `[0, 2]` range) and the delays list (length,
then non-negativity), defaulting falsy lists to all-1.0 volumes and all-0
delays; mixes per mode. -/
def merge_audio_tracks (audio_paths : List String) (output_path : String)
    (volumes delays : Option (List ℚ)) (mix_mode : String)
    (engine : EngineResult) : ToolResult :=
  if audio_paths.length < 2 then
    (.error (.valueError "Need at least 2 audio tracks to merge"), [])
  else if !(mix_mode = "mix" ∨ mix_mode = "sequence" ∨ mix_mode = "overlay") then
    (.error (.valueError "Mix mode must be one of: mix, sequence, overlay"), [])
  else if truthyL volumes ∧ (volumes.getD []).length ≠ audio_paths.length then
    (.error (.valueError "Number of volumes must match number of audio paths"), [])
  else if truthyL volumes ∧ (volumes.getD []).any (fun v => !(0 ≤ v ∧ v ≤ 2)) then
    (.error (.valueError "Volume values must be between 0.0 and 2.0"), [])
  else if truthyL delays ∧ (delays.getD []).length ≠ audio_paths.length then
    (.error (.valueError "Number of delays must match number of audio paths"), [])
  else if truthyL delays ∧ (delays.getD []).any (fun d => d < 0) then
    (.error (.valueError "Delay values must be non-negative"), [])
  else
    let vols :=
      if truthyL volumes then volumes.getD []
      else List.replicate audio_paths.length 1
    let dels :=
      if truthyL delays then delays.getD []
      else List.replicate audio_paths.length 0
    let tracks := trackSpecs audio_paths vols dels
    let plan : MixPlan :=
      if mix_mode = "mix" then .amixAll tracks.length
      else if mix_mode = "sequence" then .seqConcat tracks.length
      else .overlayFold tracks.length
    runStandard (.mergeAudio tracks plan "aac" output_path) engine
      s!"Audio tracks merged in {mix_mode} mode and saved to {output_path}"

/-! ### apply_color_grading (src/main.py:1375-1477) -/

/-- The conditional filter stages of `apply_color_grading`.  The
temperature formula is identical in both sign branches of the source:
`red_adj = 1 + (t/2000)*0.2`, `blue_adj = 1 - (t/2000)*0.2`,
`green_adj = 1 + (tint/100)*0.1`, and colorbalance receives the
adjustments minus one. -/
def colorSteps (brightness contrast saturation gamma : ℚ)
    (temperature tint : ℤ) : List ColorStep :=
  (if brightness ≠ 0 ∨ contrast ≠ 1 then
    [ColorStep.eqBrightnessContrast brightness contrast] else []) ++
  (if saturation ≠ 1 then [ColorStep.eqSaturation saturation] else []) ++
  (if gamma ≠ 1 then [ColorStep.eqGamma gamma] else []) ++
  (if temperature ≠ 0 ∨ tint ≠ 0 then
    [ColorStep.colorbalance ((temperature : ℚ) / 2000 * (1 / 5))
      ((tint : ℚ) / 100 * (1 / 10))
      (-((temperature : ℚ) / 2000 * (1 / 5)))] else [])

/-- `apply_color_grading`: validates the six parameter ranges in source
order, then applies the conditional filter stages. -/
def apply_color_grading (input_path output_path : String)
    (brightness contrast saturation gamma : ℚ) (temperature tint : ℤ)
    (engine : EngineResult) : ToolResult :=
  if !(-1 ≤ brightness ∧ brightness ≤ 1) then
    (.error (.valueError "Brightness must be between -1.0 and 1.0"), [])
  else if !(0 ≤ contrast ∧ contrast ≤ 3) then
    (.error (.valueError "Contrast must be between 0.0 and 3.0"), [])
  else if !(0 ≤ saturation ∧ saturation ≤ 3) then
    (.error (.valueError "Saturation must be between 0.0 and 3.0"), [])
  else if !(1 / 10 ≤ gamma ∧ gamma ≤ 3) then
    (.error (.valueError "Gamma must be between 0.1 and 3.0"), [])
  else if !(-2000 ≤ temperature ∧ temperature ≤ 2000) then
    (.error (.valueError "Temperature must be between -2000 and 2000"), [])
  else if !(-100 ≤ tint ∧ tint ≤ 100) then
    (.error (.valueError "Tint must be between -100 and 100"), [])
  else
    runStandard
      (.colorGrade input_path
        (colorSteps brightness contrast saturation gamma temperature tint)
        "libx264" output_path)
      engine s!"Color grading applied and saved to {output_path}"

/-! ### get_video_info (src/main.py:85-153) and the
`videos://{filename}/metadata` resource (src/main.py:2433-2493)

The probe result is modelled as structured data (ffprobe returns numeric
fields of the format section as strings already converted by the code, and
stream fields with their probe types: `sample_rate` is a string,
`channels` an int, `bit_rate` an optional string defaulted to "N/A").
JSON number rendering is abstracted by `toString`; `eval` of the
`r_frame_rate` fraction is modelled by exact rational division of the two
parsed components (a denominator of zero, which would raise
`ZeroDivisionError` in Python, is outside the model). -/

/-- One entry of `probe["streams"]`. -/
structure StreamData where
  codec_type : String
  codec_name : String
  width : ℤ := 0
  height : ℤ := 0
  r_frame_rate : String := "0/1"
  sample_rate : String := ""
  channels : ℤ := 0
  bit_rate : Option String := none
  pix_fmt : Option String := none
  channel_layout : Option String := none
  deriving DecidableEq, Repr

/-- The probe payload: the `format` section plus the stream list. -/
structure ProbeData where
  format_name : String
  duration : ℚ
  size : ℤ
  bit_rate : ℤ
  streams : List StreamData
  deriving DecidableEq, Repr

/-- Outcome of `ffmpeg.probe`, supplied as an oracle. -/
inductive ProbeResult where
  | ok (d : ProbeData)
  | err (e : FfmpegError)
  deriving DecidableEq, Repr

/-- `eval(fps_fraction)` on a probe fraction string such as "30/1". -/
def evalFrac (s : String) : ℚ :=
  match splitOnChar s (Char.ofNat 47) with
  | [a, b] => (((pyInt? a).getD 0 : ℤ) : ℚ) / (((pyInt? b).getD 0 : ℤ) : ℚ)
  | _ => (((pyInt? s).getD 0 : ℤ) : ℚ)

/-- `os.path.basename` for slash-separated paths. -/
def basename (p : String) : String :=
  (splitOnChar p (Char.ofNat 47)).getLastD ""

/-- JSON string literal (escaping abstracted). -/
def jstr (s : String) : String := "\"" ++ s ++ "\""

/-- One JSON object member. -/
def jfield (k v : String) : String := jstr k ++ ": " ++ v

/-- JSON object from rendered members, in insertion order. -/
def jobjStr (fields : List String) : String :=
  "\x7b" ++ String.intercalate ", " fields ++ "\x7d"

/-- First stream of the given `codec_type`, as selected by
`next((s for s in probe["streams"] if s["codec_type"] == t), None)`. -/
def firstStream (d : ProbeData) (t : String) : Option StreamData :=
  d.streams.find? (fun s => s.codec_type = t)

/-- The info dictionary both the tool and the resource build: base format
fields, then a `video` object for the first video stream (fps computed by
evaluating `r_frame_rate`, `bit_rate` defaulted to "N/A") and an `audio`
object for the first audio stream. -/
def metadataJson (path : String) (d : ProbeData) : String :=
  jobjStr
    ([jfield "filename" (jstr (basename path)),
      jfield "format" (jstr d.format_name),
      jfield "duration" (toString d.duration),
      jfield "size" (toString d.size),
      jfield "bit_rate" (toString d.bit_rate)] ++
     (match firstStream d "video" with
      | some vs =>
          [jfield "video" (jobjStr
            [jfield "codec" (jstr vs.codec_name),
             jfield "width" (toString vs.width),
             jfield "height" (toString vs.height),
             jfield "fps" (toString (evalFrac vs.r_frame_rate)),
             jfield "bit_rate" (jstr (vs.bit_rate.getD "N/A"))])]
      | none => []) ++
     (match firstStream d "audio" with
      | some as_ =>
          [jfield "audio" (jobjStr
            [jfield "codec" (jstr as_.codec_name),
             jfield "sample_rate" (jstr as_.sample_rate),
             jfield "channels" (toString as_.channels),
             jfield "bit_rate" (jstr (as_.bit_rate.getD "N/A"))])]
      | none => []))

/-- The `get_video_info` tool: returns the info dictionary (observed here
through its JSON rendering) on success and raises
`RuntimeError(f"Error getting video info: {str(e)}")` when the probe raises
`ffmpeg.Error`. -/
def get_video_info (video_path : String) (probe : ProbeResult) :
    Except VfxError String :=
  match probe with
  | .ok d => .ok (metadataJson video_path d)
  | .err e => .error (.runtimeError ("Error getting video info: " ++ e.render))

/-- The `videos://{filename}/metadata` resource: builds the same dictionary
and serializes it, but its `except Exception` handler turns every failure
into the JSON object `{"error": str(e)}` instead of raising. -/
def get_video_metadata (filename : String) (probe : ProbeResult) : String :=
  match probe with
  | .ok d => metadataJson filename d
  | .err e => jobjStr [jfield "error" (jstr e.render)]

/-! ### extract_video_statistics (src/main.py:2090-2245)

The tool makes up to three engine invocations: `ffmpeg.probe`, a
signalstats null run for quality analysis, and a showinfo null run for
motion analysis.  The last sits in a nested `try` whose
`except Exception` swallows the failure into an error marker inside the
returned statistics.  Python's `round(x, 2)` (banker's rounding) and
`float(str)` are modelled exactly on rationals and plain decimal strings;
binary floating-point representation error, exponent/infinity literals
and the `ZeroDivisionError` a zero probe duration would raise in the
compression section are outside the model. -/

/-- Outcome of an `ffmpeg.run(..., capture_stderr=True)` call: the
captured stderr text on success, or the raised `ffmpeg.Error`. -/
inductive RunCapture where
  | ok (stderr : String)
  | err (e : FfmpegError)
  deriving DecidableEq, Repr

/-- A parsed signal-statistics value: a float when `float(value)`
succeeds, the raw string otherwise. -/
inductive PyVal where
  | pfloat (q : ℚ)
  | pstr (s : String)
  deriving DecidableEq, Repr

/-- `str.split()` with no separator: split on whitespace runs, dropping
empty tokens (ASCII whitespace approximates Python's unicode rule). -/
def wsSplitAux : List Char → List Char → List (List Char)
  | [], acc => if acc = [] then [] else [acc.reverse]
  | c :: t, acc =>
      if c.isWhitespace then
        if acc = [] then wsSplitAux t []
        else acc.reverse :: wsSplitAux t []
      else wsSplitAux t (c :: acc)

/-- Whitespace tokens of a string. -/
def wsTokens (s : String) : List String :=
  (wsSplitAux s.toList []).map String.mk

/-- `pat in hay` for substrings. -/
def strContainsSub (hay pat : String) : Bool :=
  decide (pat.data <:+: hay.data)

/-- `str.split(c, 1)`: the part before the first `c` and everything after
it. -/
def splitFirstAt (s : String) (c : Char) : String × String :=
  (String.mk (s.toList.takeWhile (fun ch => ch ≠ c)),
   String.mk ((s.toList.dropWhile (fun ch => ch ≠ c)).drop 1))

/-- Python dict assignment `d[k] = v`: update in place when the key
exists, append otherwise. -/
def dictInsert (k : String) (v : PyVal) (d : List (String × PyVal)) :
    List (String × PyVal) :=
  if d.any (fun kv => kv.1 = k) then
    d.map (fun kv => if kv.1 = k then (k, v) else kv)
  else d ++ [(k, v)]

/-- `float(str)` on plain decimal strings with an optional sign and an
optional fractional part. -/
def pyFloat? (s : String) : Option ℚ :=
  match s.toList with
  | [] => none
  | c :: rest =>
    let signed : ℚ × List Char :=
      if c = Char.ofNat 45 then (-1, rest)
      else if c = Char.ofNat 43 then (1, rest)
      else (1, c :: rest)
    match splitChar (Char.ofNat 46) signed.2 with
    | [ip] => (parseNatDigits ip).map (fun n => signed.1 * (n : ℚ))
    | [ip, fp] =>
        if ip = [] ∧ fp = [] then none
        else
          match parseNatAux ip 0, parseNatAux fp 0 with
          | some ipn, some fpn =>
              some (signed.1 * ((ipn : ℚ) + (fpn : ℚ) / (10 : ℚ) ^ fp.length))
          | _, _ => none
    | _ => none

/-- `round(q, 2)` with Python's round-half-to-even tie rule, on exact
rationals. -/
def pyRound2 (q : ℚ) : ℚ :=
  let r := q * 100
  let fl := ⌊r⌋
  let frac := r - (fl : ℚ)
  let n : ℤ :=
    if frac < 1 / 2 then fl
    else if 1 / 2 < frac then fl + 1
    else if fl % 2 = 0 then fl else fl + 1
  (n : ℚ) / 100

/-- `hay.count(pat)` for a non-empty pattern: non-overlapping occurrences,
scanning left to right (an empty pattern yields 0, unlike Python). -/
def countOccur (pat : List Char) : List Char → ℕ
  | [] => 0
  | c :: t =>
      if pat ≠ [] ∧ pat.isPrefixOf (c :: t) then
        1 + countOccur pat ((c :: t).drop pat.length)
      else countOccur pat t
termination_by hay => hay.length
decreasing_by
  · rename_i h
    have hp : 0 < pat.length := List.length_pos.mpr h.1
    simp only [List.length_drop, List.length_cons]
    omega
  · simp only [List.length_cons]
    omega

/-- One line of the signalstats stderr scan: lines containing `YMIN:` are
split into whitespace tokens, and each token containing a colon
contributes `key.lower() -> float(value) or value` to the metrics dict. -/
def parseQualityLine (acc : List (String × PyVal)) (line : String) :
    List (String × PyVal) :=
  if strContainsSub line "YMIN:" then
    (wsTokens line).foldl
      (fun a part =>
        if strContainsChar part (Char.ofNat 58) then
          let kv := splitFirstAt part (Char.ofNat 58)
          dictInsert (strToLower kv.1)
            (match pyFloat? kv.2 with
             | some q => PyVal.pfloat q
             | none => PyVal.pstr kv.2) a
        else a)
      acc
  else acc

/-- The quality-metrics dict parsed from the captured stderr, line by
line. -/
def parseQualityMetrics (stderrText : String) : List (String × PyVal) :=
  (splitOnChar stderrText (Char.ofNat 10)).foldl parseQualityLine []

/-- The `motion_analysis` metrics dict built from a successful showinfo
run. -/
structure MotionMetrics where
  scene_changes : ℕ
  average_scene_length : ℚ
  motion_intensity : String
  deriving DecidableEq, Repr

/-- The `motion_analysis` entry: metrics on success, the
`{"error": ...}` marker when the nested handler swallowed the failure. -/
inductive MotionReport where
  | metrics (m : MotionMetrics)
  | failed (msg : String)
  deriving DecidableEq, Repr

/-- The `file_info` section of the statistics dict. -/
structure StatsFileInfo where
  filename : String
  size_bytes : ℤ
  duration_seconds : ℚ
  format_name : String
  bit_rate : ℤ
  deriving DecidableEq, Repr

/-- The `video` section (`aspect` holds the dict's "aspect_ratio" entry,
`f"{width}:{height}"`). -/
structure StatsVideo where
  codec : String
  width : ℤ
  height : ℤ
  fps : ℚ
  bit_rate : String
  pix_fmt : Option String
  aspect : String
  deriving DecidableEq, Repr

/-- The `audio` section. -/
structure StatsAudio where
  codec : String
  sample_rate : ℤ
  channels : ℤ
  bit_rate : String
  channel_layout : String
  deriving DecidableEq, Repr

/-- The `compression_analysis` section (`level` holds the dict's
"compression_ratio" entry, computed from the unrounded MB-per-minute). -/
structure CompressionReport where
  size_mb : ℚ
  mb_per_minute : ℚ
  level : String
  deriving DecidableEq, Repr

/-- The statistics dict returned by `extract_video_statistics`
(`motion` holds the dict's "motion_analysis" entry). -/
structure VideoStats where
  file_info : StatsFileInfo
  video : Option StatsVideo
  audio : Option StatsAudio
  quality_metrics : Option (List (String × PyVal))
  motion : Option MotionReport
  compression : CompressionReport
  deriving DecidableEq, Repr

/-- The quality section: for "comprehensive" or "quality" analyses, one
signalstats null run whose stderr is parsed into metrics (kept only when
non-empty); its `ffmpeg.Error` propagates to the tool's outer handler. -/
def statsQualitySection (analysis_type input_path : String)
    (run : RunCapture) :
    Except FfmpegError (Option (List (String × PyVal))) × List Effect :=
  if analysis_type = "comprehensive" ∨ analysis_type = "quality" then
    match run with
    | .ok stderrText =>
        let qm := parseQualityMetrics stderrText
        (.ok (if qm.isEmpty then none else some qm),
         [.runEngine (.nullFilter input_path "signalstats")])
    | .err e => (.error e, [.runEngine (.nullFilter input_path "signalstats")])
  else (.ok none, [])

/-- The motion section: for "comprehensive" or "motion" analyses, one
showinfo null run; scene changes are the `Parsed_showinfo` occurrences in
its stderr, and the nested `except Exception` turns a failing run into
the `{"error": "Motion analysis failed"}` marker instead of raising. -/
def statsMotionSection (analysis_type input_path : String) (duration : ℚ)
    (run : RunCapture) : Option MotionReport × List Effect :=
  if analysis_type = "comprehensive" ∨ analysis_type = "motion" then
    match run with
    | .ok stderrText =>
        let scene_count := countOccur "Parsed_showinfo".data stderrText.data
        (some (.metrics
          { scene_changes := scene_count,
            average_scene_length :=
              pyRound2 (duration / ((max scene_count 1 : ℕ) : ℚ)),
            motion_intensity :=
              if 50 < scene_count then "high"
              else if 20 < scene_count then "medium" else "low" }),
         [.runEngine (.nullFilter input_path "select=gt(scene\\,0.3),showinfo")])
    | .err _ =>
        (some (.failed "Motion analysis failed"),
         [.runEngine (.nullFilter input_path "select=gt(scene\\,0.3),showinfo")])
  else (none, [])

/-- The `compression_analysis` section: sizes in MB, MB per minute
rounded, and the level from the unrounded rate. -/
def compressionReport (duration : ℚ) (size : ℤ) : CompressionReport :=
  let size_mb : ℚ := (size : ℚ) / (1024 * 1024)
  let mbpm := size_mb / (duration / 60)
  { size_mb := pyRound2 size_mb,
    mb_per_minute := pyRound2 mbpm,
    level := if mbpm < 10 then "high" else if mbpm < 50 then "medium" else "low" }

/-- `extract_video_statistics`: validates `analysis_type`, probes the
input, optionally runs the quality and motion analyses (in that order),
and assembles the statistics dict.  `ffmpeg.Error` from the probe or the
quality run reaches the outer handler and is re-raised with the standard
message; a failing motion run is swallowed into the returned dict. -/
def extract_video_statistics (input_path analysis_type : String)
    (probe : ProbeResult) (qualityRun sceneRun : RunCapture) :
    Except VfxError VideoStats × List Effect :=
  if !(analysis_type = "basic" ∨ analysis_type = "comprehensive" ∨
       analysis_type = "quality" ∨ analysis_type = "motion") then
    (.error (.valueError
      "Analysis type must be one of: basic, comprehensive, quality, motion"),
     [])
  else
    match probe with
    | .err e =>
        (.error (.runtimeError (ffmpegErrorMsg e)),
         [.runEngine (.probeCall input_path)])
    | .ok d =>
        let qsec := statsQualitySection analysis_type input_path qualityRun
        match qsec.1 with
        | .error e =>
            (.error (.runtimeError (ffmpegErrorMsg e)),
             Effect.runEngine (EngineCmd.probeCall input_path) :: qsec.2)
        | .ok qm =>
            let msec :=
              statsMotionSection analysis_type input_path d.duration sceneRun
            (.ok
              { file_info :=
                  { filename := basename input_path,
                    size_bytes := d.size,
                    duration_seconds := d.duration,
                    format_name := d.format_name,
                    bit_rate := d.bit_rate },
                video := (firstStream d "video").map (fun vs =>
                  { codec := vs.codec_name,
                    width := vs.width,
                    height := vs.height,
                    fps := pyRound2 (evalFrac vs.r_frame_rate),
                    bit_rate := vs.bit_rate.getD "N/A",
                    pix_fmt := vs.pix_fmt,
                    aspect := s!"{vs.width}:{vs.height}" }),
                audio := (firstStream d "audio").map (fun as_ =>
                  { codec := as_.codec_name,
                    sample_rate := (pyInt? as_.sample_rate).getD 0,
                    channels := as_.channels,
                    bit_rate := as_.bit_rate.getD "N/A",
                    channel_layout := as_.channel_layout.getD "unknown" }),
                quality_metrics := qm,
                motion := msec.1,
                compression := compressionReport d.duration d.size },
             Effect.runEngine (EngineCmd.probeCall input_path) ::
               (qsec.2 ++ msec.2))

/-- A concrete stand-in for `os.path.abspath` in closed statements. -/
def absPathStub (p : String) : String := "/abs/" ++ p

/-- A tool call fails fast when a validation error implies an empty effect
trace: nothing was written, no engine process was started. -/
def failsFast (r : ToolResult) : Prop :=
  (∃ m, r.1 = Except.error (VfxError.valueError m)) → r.2 = []

/-- The scaled cells of a mosaic command, when the trace is a single
mosaic invocation. -/
def mosaicCellsOf : List Effect → Option (List (String × ℤ × ℤ))
  | [Effect.runEngine (EngineCmd.mosaic cells _ _ _ _ _)] => some cells
  | _ => none

/-! ## Theorems -/

/-- Ceiling bound used to drive induction over the halving loop. -/
theorem ceil_toNat_half_lt {r : ℚ} (h : 2 < r) :
    ⌈r / 2⌉.toNat < ⌈r⌉.toNat := by
  have h1 : r / 2 ≤ r - 1 := by linarith
  have h2 : (⌈r / 2⌉ : ℤ) ≤ ⌈r - 1⌉ := Int.ceil_le_ceil h1
  rw [Int.ceil_sub_one] at h2
  have h3 : (0 : ℤ) < ⌈r⌉ := Int.ceil_pos.mpr (by linarith)
  omega

/-- Closed form of the halving loop: starting from any tempo above 1 it
produces `k` stages of value 2 followed by the remainder `r / 2 ^ k`, where
`k` is minimal in the sense that every earlier remainder still exceeds 2,
and the final remainder lies in `(1, 2]`. -/
theorem atempoLoop_spec (n : ℕ) :
    ∀ r : ℚ, ⌈r⌉.toNat ≤ n → 1 < r →
      ∃ k : ℕ, atempoLoop r = List.replicate k 2 ++ [r / 2 ^ k] ∧
        1 < r / 2 ^ k ∧ r / 2 ^ k ≤ 2 ∧ ∀ i < k, 2 < r / 2 ^ i := by
  induction n with
  | zero =>
      intro r hn h1
      exfalso
      have h2 : (1 : ℤ) ≤ ⌈r⌉ := by
        have := Int.ceil_pos.mpr (lt_trans one_pos h1)
        omega
      omega
  | succ n ih =>
      intro r hn h1
      by_cases h2 : 2 < r
      · have h1half : (1 : ℚ) < r / 2 := by linarith
        have hlt := ceil_toNat_half_lt h2
        obtain ⟨k, hk, hgt, hle, hmin⟩ := ih (r / 2) (by omega) h1half
        refine ⟨k + 1, ?_, ?_, ?_, ?_⟩
        · rw [atempoLoop, if_pos h2, hk]
          simp only [List.replicate_succ, List.cons_append]
          congr 2
          rw [div_div, ← pow_succ']
        · rw [pow_succ', ← div_div]; exact hgt
        · rw [pow_succ', ← div_div]; exact hle
        · intro i hi
          match i with
          | 0 => simpa using h2
          | j + 1 =>
              have hj : j < k := by omega
              have := hmin j hj
              rw [pow_succ', ← div_div]
              exact this
      · refine ⟨0, ?_, ?_, ?_, ?_⟩
        · rw [atempoLoop, if_neg h2, if_pos h1]
          simp
        · simpa using h1
        · simpa using le_of_not_lt h2
        · intro i hi; omega

/-- C1: for every `speed > 2.0` accepted by `change_speed`, the audio
filter chain is `k` atempo stages of exactly 2.0 — `k` the number of
halvings needed to bring the remainder to at most 2.0 — followed by one
final stage holding the remainder (always emitted, since the remainder
stays above 1.0); every stage is at most 2.0 and the stage product equals
`speed`; the built engine command carries exactly this chain. -/
theorem change_speed_audio_chain (speed : ℚ) (h2 : 2 < speed) :
    ∃ k : ℕ,
      audioChain speed = List.replicate k 2 ++ [speed / 2 ^ k] ∧
      1 < speed / 2 ^ k ∧ speed / 2 ^ k ≤ 2 ∧
      (∀ i < k, 2 < speed / 2 ^ i) ∧
      (∀ v ∈ audioChain speed, v ≤ 2) ∧
      (audioChain speed).prod = speed ∧
      ∀ i o e, (change_speed i o speed e).2 =
        [Effect.runEngine (EngineCmd.speed i speed (audioChain speed) o)] := by
  have hchain : audioChain speed = atempoLoop speed := by
    rw [audioChain, if_neg (not_le.mpr h2)]
  obtain ⟨k, hk, hgt, hle, hmin⟩ :=
    atempoLoop_spec ⌈speed⌉.toNat speed le_rfl (by linarith)
  rw [← hchain] at hk
  refine ⟨k, hk, hgt, hle, hmin, ?_, ?_, ?_⟩
  · intro v hv
    rw [hk] at hv
    rcases List.mem_append.mp hv with hrep | hlast
    · rw [List.eq_of_mem_replicate hrep]
    · rw [List.mem_singleton.mp hlast]; exact hle
  · rw [hk, List.prod_append, List.prod_replicate, List.prod_singleton,
      mul_comm, div_mul_cancel₀]
    exact pow_ne_zero k two_ne_zero
  · intro i o e
    have hpos : ¬ speed ≤ 0 := not_le.mpr (by linarith)
    cases e <;> simp [change_speed, if_neg hpos, runStandard]

/-- Witness for C1 at the spec's example `speed = 4.0`: the hypotheses hold
and the chain is exactly two 2.0 stages. -/
theorem change_speed_audio_chain_witness :
    (2 : ℚ) < 4 ∧ audioChain 4 = [2, 2] ∧
      (∃ k : ℕ,
        audioChain 4 = List.replicate k 2 ++ [(4 : ℚ) / 2 ^ k] ∧
        1 < (4 : ℚ) / 2 ^ k ∧ (4 : ℚ) / 2 ^ k ≤ 2 ∧
        (∀ i < k, 2 < (4 : ℚ) / 2 ^ i) ∧
        (∀ v ∈ audioChain 4, v ≤ 2) ∧
        (audioChain 4).prod = 4 ∧
        ∀ i o e, (change_speed i o 4 e).2 =
          [Effect.runEngine (EngineCmd.speed i 4 (audioChain 4) o)]) :=
  ⟨by norm_num,
   by
     have hstep : atempoLoop 2 = [2] := by
       rw [atempoLoop]
       norm_num
     have h42 : (4 : ℚ) / 2 = 2 := by norm_num
     rw [audioChain, if_neg (by norm_num : ¬ (4 : ℚ) ≤ 2), atempoLoop,
       if_pos (by norm_num : (2 : ℚ) < 4), h42, hstep],
   change_speed_audio_chain 4 (by norm_num)⟩

/-- C2 (amended): `create_video_mosaic` raises a validation error, with no
engine invocation and no side effect, whenever fewer inputs are supplied
than the parsed grid needs — in particular with layout "2x2" and fewer
than 4 inputs. -/
theorem create_video_mosaic_input_count :
    (∀ (inputs : List String) (out : String) (audio : ℤ) (e : EngineResult),
        inputs.length < 4 →
          ∃ m, create_video_mosaic inputs out "2x2" audio e =
            (Except.error (VfxError.valueError m), [])) ∧
    ∀ (layout : String) (cols rows : ℤ) (inputs : List String) (out : String)
        (audio : ℤ) (e : EngineResult),
      parseLayout layout = .ok (cols, rows) →
      (inputs.length : ℤ) < cols * rows →
        ∃ m, create_video_mosaic inputs out layout audio e =
          (Except.error (VfxError.valueError m), []) := by
  have hgen : ∀ (layout : String) (cols rows : ℤ) (inputs : List String)
      (out : String) (audio : ℤ) (e : EngineResult),
      parseLayout layout = .ok (cols, rows) →
      (inputs.length : ℤ) < cols * rows →
        ∃ m, create_video_mosaic inputs out layout audio e =
          (Except.error (VfxError.valueError m), []) := by
    intro layout cols rows inputs out audio e hparse hlt
    unfold create_video_mosaic
    rw [hparse]
    dsimp only
    rw [if_pos hlt]
    exact ⟨_, rfl⟩
  refine ⟨?_, hgen⟩
  intro inputs out audio e hlen
  exact hgen "2x2" 2 2 inputs out audio e (by rfl) (by exact_mod_cast hlen)

/-- Witness for C2: a one-input call with layout "2x2" and a two-input call
with layout "3x1" both fail validation with an empty effect trace. -/
theorem create_video_mosaic_input_count_witness :
    (∃ m, create_video_mosaic ["a.mp4"] "o.mp4" "2x2" 0 EngineResult.ok =
      (Except.error (VfxError.valueError m), [])) ∧
    (∃ m, create_video_mosaic ["a.mp4", "b.mp4"] "o.mp4" "3x1" 0
        EngineResult.ok =
      (Except.error (VfxError.valueError m), [])) :=
  ⟨create_video_mosaic_input_count.1 ["a.mp4"] "o.mp4" 0 .ok (by decide),
   create_video_mosaic_input_count.2 "3x1" 3 1 ["a.mp4", "b.mp4"] "o.mp4" 0 .ok
     (by rfl) (by decide)⟩

/-- Counterexample for C2 as stated: with layout "2x2" and five inputs
(not exactly four) the operation is still performed — no validation error
is raised and the engine is invoked on the first four inputs. -/
theorem create_video_mosaic_exactly_four_counterexample :
    (5 : ℕ) ≠ 4 ∧
    (create_video_mosaic ["a1", "a2", "a3", "a4", "a5"] "o.mp4" "2x2" 0
        EngineResult.ok).1 =
      Except.ok "Video mosaic (2x2) created and saved to o.mp4" ∧
    (create_video_mosaic ["a1", "a2", "a3", "a4", "a5"] "o.mp4" "2x2" 0
        EngineResult.ok).2 =
      [Effect.runEngine (EngineCmd.mosaic
        [("a1", 960, 540), ("a2", 960, 540), ("a3", 960, 540), ("a4", 960, 540)]
        (some (4, "0_0_1_0|0_1_1_1")) (some "a1") "libx264" (some "aac")
        "o.mp4")] :=
  ⟨by decide, by rfl, by rfl⟩

/-- C3: for every layout parsed to a positive grid and accepted input list,
the engine command scales each of the first `cols*rows` inputs to a cell of
`1920 / cols` by `1080 / rows` pixels (integer division of the fixed
1920×1080 canvas). -/
theorem create_video_mosaic_cell_dimensions
    (layout : String) (cols rows : ℤ) (inputs : List String) (out : String)
    (audio : ℤ) (e : EngineResult)
    (hparse : parseLayout layout = .ok (cols, rows))
    (hc : 0 < cols) (hr : 0 < rows)
    (hlen : cols * rows ≤ (inputs.length : ℤ)) :
    mosaicCellsOf (create_video_mosaic inputs out layout audio e).2 =
      some ((inputs.take (cols * rows).toNat).map
        (fun p => (p, ((1920 / cols.toNat : ℕ) : ℤ),
                      ((1080 / rows.toNat : ℕ) : ℤ)))) := by
  have hcells : pySliceTo inputs (cols * rows) = inputs.take (cols * rows).toNat := by
    rw [pySliceTo, if_pos (by positivity)]
  have hw : Int.fdiv 1920 cols = ((1920 / cols.toNat : ℕ) : ℤ) := by
    rw [Int.ofNat_fdiv]
    congr 1
    omega
  have hh : Int.fdiv 1080 rows = ((1080 / rows.toNat : ℕ) : ℤ) := by
    rw [Int.ofNat_fdiv]
    congr 1
    omega
  unfold create_video_mosaic
  rw [hparse]
  dsimp only
  rw [if_neg (not_lt.mpr hlen)]
  cases e <;> simp only [runStandard, mosaicCellsOf, hcells, hw, hh]

/-- Witness for C3 at layout "2x2" with four inputs: the cells are the four
inputs at 960×540. -/
theorem create_video_mosaic_cell_dimensions_witness :
    parseLayout "2x2" = .ok (2, 2) ∧
    mosaicCellsOf (create_video_mosaic ["a1", "a2", "a3", "a4"] "o.mp4" "2x2" 0
        EngineResult.ok).2 =
      some (((["a1", "a2", "a3", "a4"] : List String).take ((2 * 2 : ℤ)).toNat).map
        (fun p => (p, ((1920 / (2 : ℤ).toNat : ℕ) : ℤ),
                      ((1080 / (2 : ℤ).toNat : ℕ) : ℤ)))) :=
  ⟨by rfl,
   create_video_mosaic_cell_dimensions "2x2" 2 2 ["a1", "a2", "a3", "a4"]
     "o.mp4" 0 .ok (by rfl) (by decide) (by decide) (by decide)⟩

/-- C4 (amended): `trim_video` validates nothing — it never raises a
validation error; every call passes `start_time` through to the engine
seek, in stream-copy mode, with `t = duration` only when the duration is
truthy (so `duration = 0` is treated as absent). -/
theorem trim_video_no_validation (i o : String) (st : ℚ) (d : Option ℚ)
    (e : EngineResult) :
    (∀ m, (trim_video i o st d e).1 ≠ Except.error (VfxError.valueError m)) ∧
    (trim_video i o st d e).2 =
      [Effect.runEngine
        (EngineCmd.trim i st (if truthyQ d then d else none) "copy" o)] := by
  cases e <;> simp [trim_video, runStandard]

/-- Witness for C4's amended theorem at a negative start time and a zero
duration. -/
theorem trim_video_no_validation_witness :
    (∀ m, (trim_video "in.mp4" "out.mp4" (-5) (some 0) EngineResult.ok).1 ≠
      Except.error (VfxError.valueError m)) ∧
    (trim_video "in.mp4" "out.mp4" (-5) (some 0) EngineResult.ok).2 =
      [Effect.runEngine
        (EngineCmd.trim "in.mp4" (-5) (if truthyQ (some 0) then some 0 else none)
          "copy" "out.mp4")] :=
  trim_video_no_validation "in.mp4" "out.mp4" (-5) (some 0) EngineResult.ok

/-- Counterexample for C4 as stated: a call with `start_time = -1` and
`duration = -2` raises no validation error — it succeeds and invokes the
engine with the negative values. -/
theorem trim_video_counterexample :
    (trim_video "in.mp4" "out.mp4" (-1) (some (-2)) EngineResult.ok).1 =
      Except.ok "Video trimmed successfully and saved to out.mp4" ∧
    (trim_video "in.mp4" "out.mp4" (-1) (some (-2)) EngineResult.ok).2 =
      [Effect.runEngine
        (EngineCmd.trim "in.mp4" (-1) (some (-2)) "copy" "out.mp4")] :=
  ⟨rfl, rfl⟩

/-- C5 (amended): `resize_video` raises its validation error exactly when
`width`, `height` and `scale` are all falsy; when several are supplied the
branch order gives `scale` precedence, then `width+height`, then `width`
with automatic height, then `height` with automatic width — an
over-specified call is not rejected. -/
theorem resize_video_parameter_shapes :
    (∀ i o e, resize_video i o none none none e =
      (Except.error (VfxError.valueError "Must specify either width, height, or scale"),
       [])) ∧
    (∀ i o w h s e, s ≠ 0 →
      (resize_video i o w h (some s) e).2 =
        [Effect.runEngine (EngineCmd.resize i (ScaleSpec.factor s) o)]) ∧
    (∀ i o w h e, w ≠ 0 → h ≠ 0 →
      (resize_video i o (some w) (some h) none e).2 =
        [Effect.runEngine (EngineCmd.resize i (ScaleSpec.exact w h) o)]) ∧
    (∀ i o w e, w ≠ 0 →
      (resize_video i o (some w) none none e).2 =
        [Effect.runEngine (EngineCmd.resize i (ScaleSpec.widthAuto w) o)]) ∧
    (∀ i o h e, h ≠ 0 →
      (resize_video i o none (some h) none e).2 =
        [Effect.runEngine (EngineCmd.resize i (ScaleSpec.heightAuto h) o)]) := by
  refine ⟨?_, ?_, ?_, ?_, ?_⟩
  · intro i o e
    simp [resize_video, truthyQ, truthyI]
  · intro i o w h s e hs
    cases e <;> simp [resize_video, truthyQ, resizeSpec, runStandard, hs]
  · intro i o w h e hw hh
    cases e <;>
      simp [resize_video, truthyQ, truthyI, resizeSpec, runStandard, hw, hh]
  · intro i o w e hw
    cases e <;>
      simp [resize_video, truthyQ, truthyI, resizeSpec, runStandard, hw]
  · intro i o h e hh
    cases e <;>
      simp [resize_video, truthyQ, truthyI, resizeSpec, runStandard, hh]

/-- Witness for C5's amended theorem on concrete shapes. -/
theorem resize_video_parameter_shapes_witness :
    resize_video "a.mp4" "b.mp4" none none none EngineResult.ok =
      (Except.error (VfxError.valueError "Must specify either width, height, or scale"),
       []) ∧
    (resize_video "a.mp4" "b.mp4" (some 640) none none EngineResult.ok).2 =
      [Effect.runEngine (EngineCmd.resize "a.mp4" (ScaleSpec.widthAuto 640) "b.mp4")] :=
  ⟨resize_video_parameter_shapes.1 "a.mp4" "b.mp4" EngineResult.ok,
   resize_video_parameter_shapes.2.2.2.1 "a.mp4" "b.mp4" 640 EngineResult.ok
     (by decide)⟩

/-- Counterexample for C5 as stated: supplying `scale` together with
`width` is not rejected — the resize is performed using the scale factor. -/
theorem resize_video_counterexample :
    (resize_video "in.mp4" "out.mp4" (some 640) none (some 2)
        EngineResult.ok).1 =
      Except.ok "Video resized and saved to out.mp4" ∧
    (resize_video "in.mp4" "out.mp4" (some 640) none (some 2)
        EngineResult.ok).2 =
      [Effect.runEngine
        (EngineCmd.resize "in.mp4" (ScaleSpec.factor 2) "out.mp4")] :=
  ⟨rfl, rfl⟩

/-- C6 (amended): `create_green_screen_effect` maps the six named chroma
colors to their hex constants (and `#RRGGBB` to `0xRRGGBB`), and validates
`similarity`, `blend` and `spill_reduction` against `[0, 1]`: in-range
values are used unchanged in the engine command (hence the values used lie
in `[0, 1]`), while out-of-range values raise a validation error with no
side effect — they are rejected, not clamped. -/
theorem green_screen_colors_and_ranges :
    (resolveKeyColor "green" = "0x00FF00" ∧ resolveKeyColor "blue" = "0x0000FF" ∧
     resolveKeyColor "red" = "0xFF0000" ∧ resolveKeyColor "cyan" = "0x00FFFF" ∧
     resolveKeyColor "magenta" = "0xFF00FF" ∧ resolveKeyColor "yellow" = "0xFFFF00" ∧
     resolveKeyColor "GREEN" = "0x00FF00" ∧ resolveKeyColor "#A0B1C2" = "0xA0B1C2") ∧
    (∀ i o bg c (sim bl sp : ℚ) e,
      0 ≤ sim ∧ sim ≤ 1 → 0 ≤ bl ∧ bl ≤ 1 → 0 ≤ sp ∧ sp ≤ 1 →
      (create_green_screen_effect i o bg c sim bl sp e).2 =
        [Effect.runEngine (EngineCmd.greenScreen i (resolveKeyColor c) sim bl
          (if 0 < sp then
            some (if strToLower c = "green" then 1 else 2, sp, sp * (1 / 2))
           else none)
          bg "libx264" "yuv420p" o)]) ∧
    (∀ i o bg c (sim bl sp : ℚ) e, ¬ (0 ≤ sim ∧ sim ≤ 1) →
      create_green_screen_effect i o bg c sim bl sp e =
        (Except.error (VfxError.valueError "Similarity must be between 0.0 and 1.0"),
         [])) ∧
    (∀ i o bg c (sim bl sp : ℚ) e, 0 ≤ sim ∧ sim ≤ 1 → ¬ (0 ≤ bl ∧ bl ≤ 1) →
      create_green_screen_effect i o bg c sim bl sp e =
        (Except.error (VfxError.valueError "Blend must be between 0.0 and 1.0"),
         [])) ∧
    (∀ i o bg c (sim bl sp : ℚ) e,
      0 ≤ sim ∧ sim ≤ 1 → 0 ≤ bl ∧ bl ≤ 1 → ¬ (0 ≤ sp ∧ sp ≤ 1) →
      create_green_screen_effect i o bg c sim bl sp e =
        (Except.error
          (VfxError.valueError "Spill reduction must be between 0.0 and 1.0"),
         [])) := by
  refine ⟨⟨by rfl, by rfl, by rfl, by rfl, by rfl, by rfl, by rfl, by rfl⟩,
    ?_, ?_, ?_, ?_⟩
  · intro i o bg c sim bl sp e h1 h2 h3
    cases e <;>
      simp [create_green_screen_effect, runStandard, h1, h2, h3, h1.1, h1.2,
        h2.1, h2.2, h3.1, h3.2]
  · intro i o bg c sim bl sp e h1
    simp only [create_green_screen_effect]
    rw [if_pos (by rw [decide_eq_false h1]; rfl)]
  · intro i o bg c sim bl sp e h1 h2
    simp only [create_green_screen_effect]
    rw [if_neg (by simp [decide_eq_true h1]),
      if_pos (by rw [decide_eq_false h2]; rfl)]
  · intro i o bg c sim bl sp e h1 h2 h3
    simp only [create_green_screen_effect]
    rw [if_neg (by simp [decide_eq_true h1]), if_neg (by simp [decide_eq_true h2]),
      if_pos (by rw [decide_eq_false h3]; rfl)]

/-- Witness for C6's amended theorem at in-range and out-of-range inputs. -/
theorem green_screen_colors_and_ranges_witness :
    (create_green_screen_effect "in.mp4" "out.mp4" none "green" (3 / 10) (1 / 10)
        (1 / 10) EngineResult.ok).2 =
      [Effect.runEngine (EngineCmd.greenScreen "in.mp4" (resolveKeyColor "green")
        (3 / 10) (1 / 10)
        (if 0 < (1 / 10 : ℚ) then
          some (if strToLower "green" = "green" then 1 else 2, (1 / 10 : ℚ),
            (1 / 10 : ℚ) * (1 / 2))
         else none)
        none "libx264" "yuv420p" "out.mp4")] ∧
    create_green_screen_effect "in.mp4" "out.mp4" none "green" (3 / 10) (5 : ℚ)
        (1 / 10) EngineResult.ok =
      (Except.error (VfxError.valueError "Blend must be between 0.0 and 1.0"),
       []) :=
  ⟨green_screen_colors_and_ranges.2.1 "in.mp4" "out.mp4" none "green"
     (3 / 10) (1 / 10) (1 / 10) EngineResult.ok (by norm_num) (by norm_num)
     (by norm_num),
   green_screen_colors_and_ranges.2.2.2.1 "in.mp4" "out.mp4" none "green"
     (3 / 10) 5 (1 / 10) EngineResult.ok (by norm_num) (by norm_num)⟩

/-- Counterexample for C6 as stated: an out-of-range similarity of 2.0 is
rejected with a validation error and no engine invocation — it is not
clamped into `[0, 1]` and used. -/
theorem green_screen_counterexample :
    create_green_screen_effect "in.mp4" "out.mp4" none "green" 2 0 0
        EngineResult.ok =
      (Except.error (VfxError.valueError "Similarity must be between 0.0 and 1.0"),
       []) := by
  rfl

/-- C7 (amended): `concatenate_videos` with at least 2 inputs writes the
demuxer list file (one quoted absolute path per line, in order) in the
output directory, invokes the engine in stream-copy mode, and deletes the
list file — but only on the success path: when the engine fails, the
handler re-raises before the unlink runs and the list file persists.
Fewer than 2 inputs raise a validation error with no effect at all. -/
theorem concatenate_videos_list_file (inputs : List String) (out : String)
    (abspath : String → String) :
    (inputs.length < 2 →
      ∀ e, concatenate_videos inputs out abspath e =
        (Except.error (VfxError.valueError "Need at least 2 videos to concatenate"),
         [])) ∧
    (2 ≤ inputs.length →
      (concatenate_videos inputs out abspath .ok =
        (Except.ok s!"Videos concatenated and saved to {out}",
         [Effect.writeFile (listFilePath out) (concatListContent abspath inputs),
          Effect.runEngine (EngineCmd.concatDemux (listFilePath out) "copy" out),
          Effect.unlink (listFilePath out)]) ∧
       persistsAfter (concatenate_videos inputs out abspath .ok).2
         (listFilePath out) = false) ∧
      ∀ fe,
        concatenate_videos inputs out abspath (.err fe) =
          (Except.error (VfxError.runtimeError
            ("Error concatenating videos: " ++ fe.render)),
           [Effect.writeFile (listFilePath out) (concatListContent abspath inputs),
            Effect.runEngine (EngineCmd.concatDemux (listFilePath out) "copy" out)]) ∧
        persistsAfter (concatenate_videos inputs out abspath (.err fe)).2
          (listFilePath out) = true) := by
  constructor
  · intro hlt e
    cases e <;> simp [concatenate_videos, hlt]
  · intro hge
    have hnot : ¬ inputs.length < 2 := not_lt.mpr hge
    refine ⟨⟨?_, ?_⟩, ?_⟩
    · simp [concatenate_videos, hnot]
    · simp [concatenate_videos, hnot, persistsAfter]
    · intro fe
      refine ⟨?_, ?_⟩
      · simp [concatenate_videos, hnot]
      · simp [concatenate_videos, hnot, persistsAfter]

/-- Witness for C7's amended theorem: a one-input call fails validation
with no effects, and a two-input engine failure leaves the list file on
disk. -/
theorem concatenate_videos_list_file_witness :
    concatenate_videos ["a.mp4"] "o.mp4" absPathStub EngineResult.ok =
      (Except.error (VfxError.valueError "Need at least 2 videos to concatenate"),
       []) ∧
    concatenate_videos ["a.mp4", "b.mp4"] "o.mp4" absPathStub
        (.err ⟨"ffmpeg", "", "boom"⟩) =
      (Except.error (VfxError.runtimeError
        ("Error concatenating videos: " ++
          FfmpegError.render ⟨"ffmpeg", "", "boom"⟩)),
       [Effect.writeFile (listFilePath "o.mp4")
          (concatListContent absPathStub ["a.mp4", "b.mp4"]),
        Effect.runEngine
          (EngineCmd.concatDemux (listFilePath "o.mp4") "copy" "o.mp4")]) ∧
    persistsAfter (concatenate_videos ["a.mp4", "b.mp4"] "o.mp4" absPathStub
        (.err ⟨"ffmpeg", "", "boom"⟩)).2 (listFilePath "o.mp4") = true :=
  ⟨(concatenate_videos_list_file ["a.mp4"] "o.mp4" absPathStub).1 (by decide)
     EngineResult.ok,
   (((concatenate_videos_list_file ["a.mp4", "b.mp4"] "o.mp4" absPathStub).2
     (by decide)).2 ⟨"ffmpeg", "", "boom"⟩).1,
   (((concatenate_videos_list_file ["a.mp4", "b.mp4"] "o.mp4" absPathStub).2
     (by decide)).2 ⟨"ffmpeg", "", "boom"⟩).2⟩

/-- Counterexample for C7 as stated: after an engine failure the call
raises, yet the list file `concat_list.txt` written next to the output
still exists — the claim that no list file persists after the call raises
is false. -/
theorem concatenate_videos_counterexample :
    (concatenate_videos ["a.mp4", "b.mp4"] "o.mp4" absPathStub
        (.err ⟨"ffmpeg", "", "boom"⟩)).1 =
      Except.error (VfxError.runtimeError
        "Error concatenating videos: ffmpeg error (see stderr output for detail)") ∧
    persistsAfter (concatenate_videos ["a.mp4", "b.mp4"] "o.mp4" absPathStub
        (.err ⟨"ffmpeg", "", "boom"⟩)).2 "concat_list.txt" = true :=
  ⟨rfl, rfl⟩

/-- `runStandard` surfaces engine failures as `runtimeError`, never as a
validation error. -/
theorem runStandard_not_valueError (c : EngineCmd) (e : EngineResult)
    (okMsg m : String) :
    (runStandard c e okMsg).1 ≠ Except.error (VfxError.valueError m) := by
  cases e <;> simp [runStandard]

/-- A result that is either an immediate effect-free error or a single
standard engine invocation fails fast. -/
theorem failsFast_of_shape {r : ToolResult}
    (h : (∃ err, r = (Except.error err, [])) ∨
         ∃ c e okMsg, r = runStandard c e okMsg) :
    failsFast r := by
  rcases h with ⟨err, rfl⟩ | ⟨c, e, okMsg, rfl⟩
  · intro _; rfl
  · rintro ⟨m, hm⟩
    exact absurd hm (runStandard_not_valueError c e okMsg m)

set_option maxHeartbeats 1000000 in
/-- C8: across the embedded tools, a validation failure is raised before
any side effect — whenever a call returns a validation error its effect
trace is empty: no file was written, no engine subprocess was started, no
temporary file was created. -/
theorem validation_failures_have_no_effects :
    (∀ i o st d e, failsFast (trim_video i o st d e)) ∧
    (∀ i o w h s e, failsFast (resize_video i o w h s e)) ∧
    (∀ ps o ab e, failsFast (concatenate_videos ps o ab e)) ∧
    (∀ i o sp e, failsFast (change_speed i o sp e)) ∧
    (∀ ps o l a e, failsFast (create_video_mosaic ps o l a e)) ∧
    (∀ i o bg c s b r e, failsFast (create_green_screen_effect i o bg c s b r e)) ∧
    (∀ ps o v d m e, failsFast (merge_audio_tracks ps o v d m e)) ∧
    (∀ i o b c s g t ti e, failsFast (apply_color_grading i o b c s g t ti e)) := by
  refine ⟨?_, ?_, ?_, ?_, ?_, ?_, ?_, ?_⟩
  · intro i o st d e
    apply failsFast_of_shape
    exact Or.inr ⟨_, _, _, rfl⟩
  · intro i o w h s e
    apply failsFast_of_shape
    unfold resize_video
    split
    · exact Or.inl ⟨_, rfl⟩
    · exact Or.inr ⟨_, _, _, rfl⟩
  · rintro ps o ab e ⟨m, hm⟩
    by_cases hc : ps.length < 2
    · simp [concatenate_videos, hc]
    · exfalso
      cases e <;> simp [concatenate_videos, hc] at hm
  · intro i o sp e
    apply failsFast_of_shape
    unfold change_speed
    split
    · exact Or.inl ⟨_, rfl⟩
    · exact Or.inr ⟨_, _, _, rfl⟩
  · intro ps o l a e
    apply failsFast_of_shape
    unfold create_video_mosaic
    split
    · exact Or.inl ⟨_, rfl⟩
    · dsimp only
      split
      · exact Or.inl ⟨_, rfl⟩
      · exact Or.inr ⟨_, _, _, rfl⟩
  · intro i o bg c s b r e
    apply failsFast_of_shape
    unfold create_green_screen_effect
    split
    · exact Or.inl ⟨_, rfl⟩
    · split
      · exact Or.inl ⟨_, rfl⟩
      · split
        · exact Or.inl ⟨_, rfl⟩
        · exact Or.inr ⟨_, _, _, rfl⟩
  · intro ps o v d m e
    apply failsFast_of_shape
    unfold merge_audio_tracks
    split
    · exact Or.inl ⟨_, rfl⟩
    · split
      · exact Or.inl ⟨_, rfl⟩
      · split
        · exact Or.inl ⟨_, rfl⟩
        · split
          · exact Or.inl ⟨_, rfl⟩
          · split
            · exact Or.inl ⟨_, rfl⟩
            · split
              · exact Or.inl ⟨_, rfl⟩
              · exact Or.inr ⟨_, _, _, rfl⟩
  · intro i o b c s g t ti e
    apply failsFast_of_shape
    unfold apply_color_grading
    split
    · exact Or.inl ⟨_, rfl⟩
    · split
      · exact Or.inl ⟨_, rfl⟩
      · split
        · exact Or.inl ⟨_, rfl⟩
        · split
          · exact Or.inl ⟨_, rfl⟩
          · split
            · exact Or.inl ⟨_, rfl⟩
            · split
              · exact Or.inl ⟨_, rfl⟩
              · exact Or.inr ⟨_, _, _, rfl⟩

/-- Witness for C8 at two concrete validation failures: an argument-free
resize and a bogus merge mix mode both return with an empty trace. -/
theorem validation_failures_have_no_effects_witness :
    (resize_video "a.mp4" "b.mp4" none none none EngineResult.ok).2 = [] ∧
    (merge_audio_tracks ["a.mp3", "b.mp3"] "o.mp3" none none "bogus"
        EngineResult.ok).2 = [] :=
  ⟨validation_failures_have_no_effects.2.1 "a.mp4" "b.mp4" none none none
     EngineResult.ok ⟨_, by rfl⟩,
   validation_failures_have_no_effects.2.2.2.2.2.2.1 ["a.mp3", "b.mp3"] "o.mp3"
     none none "bogus" EngineResult.ok ⟨_, by rfl⟩⟩

/-- The standard wrap carries the runtime error built from the captured
stderr. -/
theorem runStandard_err (c : EngineCmd) (fe : FfmpegError) (okMsg : String) :
    (runStandard c (.err fe) okMsg).1 =
      Except.error (VfxError.runtimeError (ffmpegErrorMsg fe)) := rfl

set_option maxHeartbeats 1000000 in
/-- C9 (amended): when the engine raises, the tools re-raise a single
`RuntimeError` and never retry (at most one engine invocation for the
single-command tools; one probe and at most two analysis runs, each
attempted once, for `extract_video_statistics`).  The tools using the
standard handler produce a message that embeds the captured stderr
whenever it is non-empty and the stringified exception otherwise, with
two deviations: `concatenate_videos` and `get_video_info` wrap only the
stringified exception, which does not carry the stderr text, and
`extract_video_statistics` swallows a failure of its nested
motion-analysis invocation, recording an error marker in the returned
statistics and returning success.  Its probe and quality-run failures
still reach the standard handler. -/
theorem engine_errors_wrapped :
    (∀ fe : FfmpegError, fe.stderr ≠ "" →
      msgContains (ffmpegErrorMsg fe) fe.stderr) ∧
    (∀ fe : FfmpegError, fe.stderr = "" →
      ffmpegErrorMsg fe = "FFmpeg error: " ++ fe.render) ∧
    (∀ i o st d fe, (trim_video i o st d (.err fe)).1 =
      Except.error (VfxError.runtimeError (ffmpegErrorMsg fe))) ∧
    (∀ i o w h s fe,
      (resize_video i o w h s (.err fe)).1 =
          Except.error (VfxError.runtimeError (ffmpegErrorMsg fe)) ∨
        ∃ m, (resize_video i o w h s (.err fe)).1 =
          Except.error (VfxError.valueError m)) ∧
    (∀ i o sp fe,
      (change_speed i o sp (.err fe)).1 =
          Except.error (VfxError.runtimeError (ffmpegErrorMsg fe)) ∨
        ∃ m, (change_speed i o sp (.err fe)).1 =
          Except.error (VfxError.valueError m)) ∧
    (∀ ps o l a fe,
      (create_video_mosaic ps o l a (.err fe)).1 =
          Except.error (VfxError.runtimeError (ffmpegErrorMsg fe)) ∨
        ∃ m, (create_video_mosaic ps o l a (.err fe)).1 =
          Except.error (VfxError.valueError m)) ∧
    (∀ i o bg c s b r fe,
      (create_green_screen_effect i o bg c s b r (.err fe)).1 =
          Except.error (VfxError.runtimeError (ffmpegErrorMsg fe)) ∨
        ∃ m, (create_green_screen_effect i o bg c s b r (.err fe)).1 =
          Except.error (VfxError.valueError m)) ∧
    (∀ ps o v d mm fe,
      (merge_audio_tracks ps o v d mm (.err fe)).1 =
          Except.error (VfxError.runtimeError (ffmpegErrorMsg fe)) ∨
        ∃ m, (merge_audio_tracks ps o v d mm (.err fe)).1 =
          Except.error (VfxError.valueError m)) ∧
    (∀ i o b c s g t ti fe,
      (apply_color_grading i o b c s g t ti (.err fe)).1 =
          Except.error (VfxError.runtimeError (ffmpegErrorMsg fe)) ∨
        ∃ m, (apply_color_grading i o b c s g t ti (.err fe)).1 =
          Except.error (VfxError.valueError m)) ∧
    (∀ ps o ab fe, 2 ≤ ps.length →
      (concatenate_videos ps o ab (.err fe)).1 =
        Except.error (VfxError.runtimeError
          ("Error concatenating videos: " ++ fe.render))) ∧
    (∀ p fe, get_video_info p (.err fe) =
      Except.error (VfxError.runtimeError
        ("Error getting video info: " ++ fe.render))) ∧
    (∀ i o st d e, engineRuns (trim_video i o st d e).2 ≤ 1) ∧
    (∀ i o w h s e, engineRuns (resize_video i o w h s e).2 ≤ 1) ∧
    (∀ ps o ab e, engineRuns (concatenate_videos ps o ab e).2 ≤ 1) ∧
    (∀ i o sp e, engineRuns (change_speed i o sp e).2 ≤ 1) ∧
    (∀ ps o l a e, engineRuns (create_video_mosaic ps o l a e).2 ≤ 1) ∧
    (∀ i o bg c s b r e,
      engineRuns (create_green_screen_effect i o bg c s b r e).2 ≤ 1) ∧
    (∀ ps o v d mm e, engineRuns (merge_audio_tracks ps o v d mm e).2 ≤ 1) ∧
    (∀ i o b c s g t ti e,
      engineRuns (apply_color_grading i o b c s g t ti e).2 ≤ 1) ∧
    (∀ p at_ fe qr sr,
      (extract_video_statistics p at_ (.err fe) qr sr).1 =
          Except.error (VfxError.runtimeError (ffmpegErrorMsg fe)) ∨
        ∃ m, (extract_video_statistics p at_ (.err fe) qr sr).1 =
          Except.error (VfxError.valueError m)) ∧
    (∀ p (at_ : String) d fe sr, at_ = "comprehensive" ∨ at_ = "quality" →
      extract_video_statistics p at_ (.ok d) (.err fe) sr =
        (Except.error (VfxError.runtimeError (ffmpegErrorMsg fe)),
         [Effect.runEngine (EngineCmd.probeCall p),
          Effect.runEngine (EngineCmd.nullFilter p "signalstats")])) ∧
    (∀ p d qr fe, ∃ stats,
      extract_video_statistics p "motion" (.ok d) qr (.err fe) =
        (Except.ok stats,
         [Effect.runEngine (EngineCmd.probeCall p),
          Effect.runEngine (EngineCmd.nullFilter p
            "select=gt(scene\\,0.3),showinfo")]) ∧
      stats.motion = some (MotionReport.failed "Motion analysis failed")) ∧
    (∀ p d qstderr fe, ∃ stats,
      extract_video_statistics p "comprehensive" (.ok d) (.ok qstderr)
          (.err fe) =
        (Except.ok stats,
         [Effect.runEngine (EngineCmd.probeCall p),
          Effect.runEngine (EngineCmd.nullFilter p "signalstats"),
          Effect.runEngine (EngineCmd.nullFilter p
            "select=gt(scene\\,0.3),showinfo")]) ∧
      stats.motion = some (MotionReport.failed "Motion analysis failed")) := by
  have hrs : ∀ c e okMsg, engineRuns (runStandard c e okMsg).2 ≤ 1 := by
    intro c e okMsg
    cases e <;> simp [runStandard, engineRuns]
  refine ⟨?_, ?_, ?_, ?_, ?_, ?_, ?_, ?_, ?_, ?_, ?_, ?_, ?_, ?_, ?_, ?_, ?_,
    ?_, ?_, ?_, ?_, ?_, ?_⟩
  · intro fe h
    unfold msgContains ffmpegErrorMsg
    rw [if_neg h, String.data_append]
    exact (List.suffix_append _ _).isInfix
  · intro fe h
    unfold ffmpegErrorMsg
    rw [if_pos h]
  · intro i o st d fe
    rfl
  · intro i o w h s fe
    unfold resize_video
    split
    · exact Or.inr ⟨_, rfl⟩
    · exact Or.inl rfl
  · intro i o sp fe
    unfold change_speed
    split
    · exact Or.inr ⟨_, rfl⟩
    · exact Or.inl rfl
  · intro ps o l a fe
    rcases hpl : parseLayout l with err | pr
    · have herr : ∃ m, err = VfxError.valueError m := by
        unfold parseLayout at hpl
        split at hpl
        · injection hpl with h
          exact ⟨_, h.symm⟩
        · split at hpl
          · exact Except.noConfusion hpl
          · injection hpl with h
            exact ⟨_, h.symm⟩
      obtain ⟨m, rfl⟩ := herr
      refine Or.inr ⟨m, ?_⟩
      unfold create_video_mosaic
      rw [hpl]
    · unfold create_video_mosaic
      rw [hpl]
      dsimp only
      split
      · exact Or.inr ⟨_, rfl⟩
      · exact Or.inl rfl
  · intro i o bg c s b r fe
    unfold create_green_screen_effect
    split
    · exact Or.inr ⟨_, rfl⟩
    · split
      · exact Or.inr ⟨_, rfl⟩
      · split
        · exact Or.inr ⟨_, rfl⟩
        · exact Or.inl rfl
  · intro ps o v d mm fe
    unfold merge_audio_tracks
    split
    · exact Or.inr ⟨_, rfl⟩
    · split
      · exact Or.inr ⟨_, rfl⟩
      · split
        · exact Or.inr ⟨_, rfl⟩
        · split
          · exact Or.inr ⟨_, rfl⟩
          · split
            · exact Or.inr ⟨_, rfl⟩
            · split
              · exact Or.inr ⟨_, rfl⟩
              · exact Or.inl rfl
  · intro i o b c s g t ti fe
    unfold apply_color_grading
    split
    · exact Or.inr ⟨_, rfl⟩
    · split
      · exact Or.inr ⟨_, rfl⟩
      · split
        · exact Or.inr ⟨_, rfl⟩
        · split
          · exact Or.inr ⟨_, rfl⟩
          · split
            · exact Or.inr ⟨_, rfl⟩
            · split
              · exact Or.inr ⟨_, rfl⟩
              · exact Or.inl rfl
  · intro ps o ab fe h
    unfold concatenate_videos
    rw [if_neg (not_lt.mpr h)]
  · intro p fe
    rfl
  · intro i o st d e
    exact hrs _ _ _
  · intro i o w h s e
    unfold resize_video
    split
    · simp [engineRuns]
    · exact hrs _ _ _
  · intro ps o ab e
    cases e <;> by_cases hc : ps.length < 2 <;>
      simp [concatenate_videos, hc, engineRuns]
  · intro i o sp e
    unfold change_speed
    split
    · simp [engineRuns]
    · exact hrs _ _ _
  · intro ps o l a e
    unfold create_video_mosaic
    split
    · simp [engineRuns]
    · dsimp only
      split
      · simp [engineRuns]
      · exact hrs _ _ _
  · intro i o bg c s b r e
    unfold create_green_screen_effect
    split
    · simp [engineRuns]
    · split
      · simp [engineRuns]
      · split
        · simp [engineRuns]
        · exact hrs _ _ _
  · intro ps o v d mm e
    unfold merge_audio_tracks
    split
    · simp [engineRuns]
    · split
      · simp [engineRuns]
      · split
        · simp [engineRuns]
        · split
          · simp [engineRuns]
          · split
            · simp [engineRuns]
            · split
              · simp [engineRuns]
              · exact hrs _ _ _
  · intro i o b c s g t ti e
    unfold apply_color_grading
    split
    · simp [engineRuns]
    · split
      · simp [engineRuns]
      · split
        · simp [engineRuns]
        · split
          · simp [engineRuns]
          · split
            · simp [engineRuns]
            · split
              · simp [engineRuns]
              · exact hrs _ _ _
  · intro p at_ fe qr sr
    unfold extract_video_statistics
    split
    · exact Or.inr ⟨_, rfl⟩
    · exact Or.inl rfl
  · intro p at_ d fe sr hat
    rcases hat with rfl | rfl <;> rfl
  · intro p d qr fe
    exact ⟨_, rfl, rfl⟩
  · intro p d qstderr fe
    exact ⟨_, rfl, rfl⟩

/-- Witness for C9 at concrete engine failures: the standard message
carries the stderr text, the concatenation handler wraps the stringified
exception, a successful trim runs the engine exactly once, and a failing
motion-analysis run is swallowed into a successful statistics result. -/
theorem engine_errors_wrapped_witness :
    msgContains (ffmpegErrorMsg ⟨"ffmpeg", "", "boom"⟩) "boom" ∧
    (concatenate_videos ["a.mp4", "b.mp4"] "o.mp4" absPathStub
        (.err ⟨"ffmpeg", "", "boom"⟩)).1 =
      Except.error (VfxError.runtimeError
        ("Error concatenating videos: " ++
          FfmpegError.render ⟨"ffmpeg", "", "boom"⟩)) ∧
    engineRuns (trim_video "a.mp4" "b.mp4" 0 none EngineResult.ok).2 ≤ 1 ∧
    (∃ stats,
      extract_video_statistics "clipA.mp4" "motion"
          (.ok ⟨"mov", 10, 1048576, 800000, []⟩) (RunCapture.ok "")
          (.err ⟨"ffmpeg", "", "scene fail"⟩) =
        (Except.ok stats,
         [Effect.runEngine (EngineCmd.probeCall "clipA.mp4"),
          Effect.runEngine (EngineCmd.nullFilter "clipA.mp4"
            "select=gt(scene\\,0.3),showinfo")]) ∧
      stats.motion = some (MotionReport.failed "Motion analysis failed")) :=
  ⟨engine_errors_wrapped.1 ⟨"ffmpeg", "", "boom"⟩ (by decide),
   engine_errors_wrapped.2.2.2.2.2.2.2.2.2.1 ["a.mp4", "b.mp4"] "o.mp4"
     absPathStub ⟨"ffmpeg", "", "boom"⟩ (by decide),
   engine_errors_wrapped.2.2.2.2.2.2.2.2.2.2.2.1 "a.mp4" "b.mp4" 0 none
     EngineResult.ok,
   engine_errors_wrapped.2.2.2.2.2.2.2.2.2.2.2.2.2.2.2.2.2.2.2.2.2.1
     "clipA.mp4" ⟨"mov", 10, 1048576, 800000, []⟩ (RunCapture.ok "")
     ⟨"ffmpeg", "", "scene fail"⟩⟩

set_option maxRecDepth 16384 in
/-- Counterexample for C9 as stated, at two concrete inputs: on an engine
failure inside `concatenate_videos` the re-raised message is built from
the stringified exception and does not contain the captured stderr text;
and when the motion-analysis invocation of `extract_video_statistics`
fails, the tool re-raises nothing at all — it returns a successful
statistics dictionary carrying only an error marker. -/
theorem engine_errors_wrapped_counterexample :
    (concatenate_videos ["a.mp4", "b.mp4"] "o.mp4" absPathStub
        (.err ⟨"ffmpeg", "", "BOOMSTDERR"⟩)).1 =
      Except.error (VfxError.runtimeError
        "Error concatenating videos: ffmpeg error (see stderr output for detail)") ∧
    ¬ msgContains
        "Error concatenating videos: ffmpeg error (see stderr output for detail)"
        "BOOMSTDERR" ∧
    (∃ stats,
      extract_video_statistics "in.mp4" "motion"
          (.ok ⟨"mov", 10, 1048576, 800000, []⟩) (RunCapture.ok "")
          (.err ⟨"ffmpeg", "", "SCENEBOOM"⟩) =
        (Except.ok stats,
         [Effect.runEngine (EngineCmd.probeCall "in.mp4"),
          Effect.runEngine (EngineCmd.nullFilter "in.mp4"
            "select=gt(scene\\,0.3),showinfo")]) ∧
      stats.motion = some (MotionReport.failed "Motion analysis failed")) :=
  ⟨rfl, by decide, ⟨_, rfl, rfl⟩⟩

/-- C10: the per-file metadata resource is total — for every probe outcome
it returns a JSON string, the metadata object on success and an object with
a single `error` member otherwise — while the `get_video_info` tool raises
a `RuntimeError` when the probe fails. -/
theorem get_video_metadata_total (filename : String) (probe : ProbeResult) :
    ((∃ d, probe = ProbeResult.ok d ∧
        get_video_metadata filename probe = metadataJson filename d) ∨
      (∃ fe, probe = ProbeResult.err fe ∧
        get_video_metadata filename probe =
          jobjStr [jfield "error" (jstr fe.render)])) ∧
    (∀ fe, probe = ProbeResult.err fe →
      get_video_info filename probe =
        Except.error (VfxError.runtimeError
          ("Error getting video info: " ++ fe.render))) := by
  constructor
  · cases probe with
    | ok d => exact Or.inl ⟨d, rfl, rfl⟩
    | err fe => exact Or.inr ⟨fe, rfl, rfl⟩
  · rintro fe rfl
    rfl

/-- Witness for C10 at a failing probe: the resource answers with the
error object while the tool raises. -/
theorem get_video_metadata_total_witness :
    get_video_metadata "clip.mp4" (.err ⟨"ffprobe", "", "nope"⟩) =
      jobjStr [jfield "error"
        (jstr (FfmpegError.render ⟨"ffprobe", "", "nope"⟩))] ∧
    get_video_info "clip.mp4" (.err ⟨"ffprobe", "", "nope"⟩) =
      Except.error (VfxError.runtimeError
        ("Error getting video info: " ++
          FfmpegError.render ⟨"ffprobe", "", "nope"⟩)) := by
  have h := get_video_metadata_total "clip.mp4" (.err ⟨"ffprobe", "", "nope"⟩)
  constructor
  · rcases h.1 with ⟨d, hd, _⟩ | ⟨fe, hfe, hm⟩
    · exact absurd hd (by simp)
    · injection hfe with h2
      subst h2
      exact hm
  · exact h.2 _ rfl

end VfxMcp
